/-
Verification of the URL Accessibility & Quality Validation Engine of the
reference-refinement repository.

The Python modules `deep_url_validation.py`, `Production_Quality_Framework.py`,
`Production_Quality_Framework_Enhanced.py` and `analyze_existing_urls.py` are
shallowly embedded below, one namespace per module.  Network I/O (aiohttp /
requests calls) is modelled by passing the outcome of the network interaction
(the response text and status, or the raised exception's message) as an
explicit argument to the embedded function; everything downstream of that
outcome is translated directly from the Python source.

Python `str` values are modelled by Lean `String`; all character-level
operations are implemented over `List Char` by structural recursion so that
every definition evaluates inside the kernel.  Python `float` arithmetic is
modelled by the exact fraction type `Frac` below: every float that the source
manipulates is a small decimal constant or a ratio of small integers, and at
every comparison the source performs, IEEE double rounding and exact rational
arithmetic agree, so the embedding is observationally faithful.  Python `re`
patterns (all of which use only literals, character classes, `.`, `?`, `*`,
`+`, bounded repetition and alternation) are embedded as a Brzozowski
derivative matcher; `re.search` with `re.IGNORECASE` (or an explicitly
lower-cased haystack, as in the Enhanced module) is modelled by lower-casing
the haystack, all pattern literals being lower-case.
-/

import Mathlib

set_option maxRecDepth 20000
set_option linter.unusedVariables false

-- ===========================================================================
-- §1  Python string primitives over List Char
-- ===========================================================================

/-- ASCII lower-casing of one character, as Python `str.lower` acts on the
ASCII characters that occur in the repository's data. -/
def charLower (c : Char) : Char :=
  if 'A' ≤ c && c ≤ 'Z' then Char.ofNat (c.toNat + 32) else c

def lowerChars (cs : List Char) : List Char := cs.map charLower

/-- Python `str.lower`. -/
def pyLower (s : String) : String := String.mk (lowerChars s.data)

/-- The whitespace characters recognised by Python's `str.split()` /
`str.strip()` and by the regex class `\s` (ASCII range). -/
def isPyWs (c : Char) : Bool :=
  c = ' ' || c = '\t' || c = '\n' || c = '\r' || c = '\x0b' || c = '\x0c'

def isPrefixChars : List Char → List Char → Bool
  | [], _ => true
  | _ :: _, [] => false
  | a :: as, b :: bs => a = b && isPrefixChars as bs

/-- Contiguous-substring test: Python's `needle in hay`. -/
def containsChars (hay needle : List Char) : Bool :=
  match hay with
  | [] => match needle with | [] => true | _ :: _ => false
  | _ :: t => isPrefixChars needle hay || containsChars t needle

/-- Python `needle in hay` on strings (`'' in s` is true, as in Python). -/
def pyContains (hay needle : String) : Bool := containsChars hay.data needle.data

def splitWsAux : List Char → List Char → List (List Char)
  | [], acc => if acc.isEmpty then [] else [acc.reverse]
  | c :: cs, acc =>
    if isPyWs c then
      if acc.isEmpty then splitWsAux cs [] else acc.reverse :: splitWsAux cs []
    else splitWsAux cs (c :: acc)

/-- Python `str.split()` with no separator: split on whitespace runs and
drop empty fields. -/
def pySplitWs (s : String) : List String :=
  (splitWsAux s.data []).map String.mk

def splitOnCharAux (sep : Char) : List Char → List Char → List (List Char)
  | [], acc => [acc.reverse]
  | c :: cs, acc =>
    if c = sep then acc.reverse :: splitOnCharAux sep cs []
    else splitOnCharAux sep cs (c :: acc)

/-- Python `str.split(sep)` for a one-character separator (keeps empty
fields; result is always non-empty). -/
def pySplitOn (s : String) (sep : Char) : List String :=
  (splitOnCharAux sep s.data []).map String.mk

/-- Python `str.strip()`. -/
def pyStrip (s : String) : String :=
  String.mk (((s.data.dropWhile isPyWs).reverse.dropWhile isPyWs).reverse)

def pyStartsWith (s pre : String) : Bool := isPrefixChars pre.data s.data

def pyEndsWith (s suf : String) : Bool := isPrefixChars suf.data.reverse s.data.reverse

/-- Python `s.replace('www.', '')`: remove every (left-to-right,
non-overlapping) occurrence of `www.`.  Specialised to the only pattern the
sources use, to keep the recursion structural. -/
def replaceWWW : List Char → List Char
  | 'w' :: 'w' :: 'w' :: '.' :: rest => replaceWWW rest
  | c :: rest => c :: replaceWWW rest
  | [] => []

def isSchemeChar (c : Char) : Bool :=
  c.isAlpha || c.isDigit || c = '+' || c = '-' || c = '.'

/-- The remainder of the URL after a syntactically valid `scheme:` part, as
`urllib.parse.urlparse` strips it; a URL with no valid scheme is returned
unchanged. -/
def afterScheme (cs : List Char) : List Char :=
  let pre := cs.takeWhile (fun c => c ≠ ':')
  if pre.length < cs.length then
    match pre with
    | [] => cs
    | c :: _ =>
      if c.isAlpha && pre.all isSchemeChar then cs.drop (pre.length + 1) else cs
  else cs

/-- `urllib.parse.urlparse(url).netloc`: present only when (after the scheme)
the URL continues with `//`, and extends to the next `/`, `?` or `#`. -/
def netlocChars (cs : List Char) : List Char :=
  match afterScheme cs with
  | '/' :: '/' :: r => r.takeWhile (fun c => c ≠ '/' && c ≠ '?' && c ≠ '#')
  | _ => []

-- ===========================================================================
-- §2  Exact stand-in for the Python floats the engine manipulates
-- ===========================================================================

/-- An exact fraction `num / den` with `den > 0` at every construction site.
Kept unnormalised so that all operations are single `Int` operations and
reduce inside the kernel. -/
structure Frac where
  num : Int
  den : Int
  deriving DecidableEq, Repr

def Frac.ofInt (n : Int) : Frac := ⟨n, 1⟩

def Frac.le (a b : Frac) : Bool := a.num * b.den ≤ b.num * a.den

def Frac.lt (a b : Frac) : Bool := a.num * b.den < b.num * a.den

def Frac.add (a b : Frac) : Frac := ⟨a.num * b.den + b.num * a.den, a.den * b.den⟩

def Frac.mul (a b : Frac) : Frac := ⟨a.num * b.num, a.den * b.den⟩

/-- Python `int(x)` for the non-negative values it is applied to (truncation
towards zero coincides with the floor there). -/
def Frac.floor (a : Frac) : Int := Int.fdiv a.num a.den

/-- Mathematical value of a fraction, for stating theorems. -/
def Frac.val (a : Frac) : Rat := (a.num : Rat) / (a.den : Rat)

/-- Python `min` on two floats (returns the first argument on ties). -/
def Frac.min (a b : Frac) : Frac := if Frac.le a b then a else b

/-- Render a confidence as the `{x:.0%}` of the sources' f-strings (rounding
at one half differs from IEEE's half-even; no claim observes these strings). -/
def percentStr (f : Frac) : String :=
  toString (Int.fdiv (f.num * 200 + f.den) (f.den * 2)) ++ "%"

/-- Stable insertion placing `x` before the first element whose key is no
greater: together with `sortDesc`'s right fold this reproduces exactly the
list produced by Python's stable `list.sort(key=..., reverse=True)`. -/
def insertDesc (key : α → Int) (x : α) : List α → List α
  | [] => [x]
  | y :: ys => if key y ≤ key x then x :: y :: ys else y :: insertDesc key x ys

/-- Python `list.sort(key=..., reverse=True)`: sort descending by key,
elements with equal keys keeping their original relative order. -/
def sortDesc (key : α → Int) : List α → List α
  | [] => []
  | x :: xs => insertDesc key x (sortDesc key xs)

-- ===========================================================================
-- §3  Regular-expression matcher (Brzozowski derivatives)
-- ===========================================================================

inductive Rx where
  | emp : Rx
  | eps : Rx
  | cls : (Char → Bool) → Rx
  | alt : Rx → Rx → Rx
  | cat : Rx → Rx → Rx
  | star : Rx → Rx

def Rx.nullable : Rx → Bool
  | .emp => false
  | .eps => true
  | .cls _ => false
  | .alt r s => r.nullable || s.nullable
  | .cat r s => r.nullable && s.nullable
  | .star _ => true

/-- Concatenation, collapsing the empty language and the empty string (the
collapses are language identities; they only keep derivative terms small). -/
def Rx.scat (r s : Rx) : Rx :=
  match r, s with
  | .emp, _ => .emp
  | _, .emp => .emp
  | .eps, s => s
  | r, .eps => r
  | r, s => .cat r s

/-- Alternation, collapsing the empty language. -/
def Rx.salt (r s : Rx) : Rx :=
  match r, s with
  | .emp, s => s
  | r, .emp => r
  | r, s => .alt r s

def Rx.deriv : Rx → Char → Rx
  | .emp, _ => .emp
  | .eps, _ => .emp
  | .cls p, c => if p c then .eps else .emp
  | .alt r s, c => Rx.salt (r.deriv c) (s.deriv c)
  | .cat r s, c =>
    if r.nullable then Rx.salt (Rx.scat (r.deriv c) s) (s.deriv c)
    else Rx.scat (r.deriv c) s
  | .star r, c => Rx.scat (r.deriv c) (.star r)

/-- Does some (possibly empty) prefix of the input match the pattern? -/
def Rx.matchesAtStart : Rx → List Char → Bool
  | .emp, _ => false
  | r, [] => r.nullable
  | r, c :: cs => r.nullable || (r.deriv c).matchesAtStart cs

/-- Does the pattern match starting at some position of the input?  This is
Python's `re.search` viewed as a boolean. -/
def Rx.searchChars : Rx → List Char → Bool
  | r, [] => r.nullable
  | r, s@(_ :: cs) => r.matchesAtStart s || r.searchChars cs

/-- `re.search(pattern, text)` as a boolean, for a case-insensitive pattern
whose literals are lower-case: the haystack is lower-cased, which is how the
Enhanced module calls `re.search` and is equivalent to `re.IGNORECASE` for
the all-ASCII patterns of both modules. -/
def Rx.search (r : Rx) (s : String) : Bool :=
  r.searchChars (lowerChars s.data)

-- Pattern-building helpers: `lit s` is a literal, `rdot` is `.`, `rws` is
-- `\s`, `rdigit` is `\d`, `ropt` is `?`, `rplus` is `+`, `anyStr` is `.*`,
-- `ws0` is `\s*`, `rcat`/`ralts` fold concatenation/alternation.

def rchar (c : Char) : Rx := .cls (fun x => x = c)

def lit (s : String) : Rx := s.data.foldr (fun c r => .cat (rchar c) r) .eps

def rdot : Rx := .cls (fun c => c ≠ '\n')

def rws : Rx := .cls isPyWs

def rdigit : Rx := .cls Char.isDigit

def ropt (r : Rx) : Rx := .alt r .eps

def rplus (r : Rx) : Rx := .cat r (.star r)

def anyStr : Rx := .star rdot

def ws0 : Rx := .star rws

def rcat (rs : List Rx) : Rx := rs.foldr .cat .eps

def ralts (rs : List Rx) : Rx := rs.foldr .alt .emp

-- ===========================================================================
-- §4  deep_url_validation.py
-- ===========================================================================

namespace DeepVal

/-- One entry of a pattern table: a compiled regex and its descriptive name. -/
structure NamedPattern where
  pattern : Rx
  name : String

/-- `PAYWALL_PATTERNS` of deep_url_validation.py. -/
def PAYWALL_PATTERNS : List NamedPattern := [
  ⟨ralts [rcat [lit "subscribe", anyStr, lit "continue"],
          rcat [lit "subscription", anyStr, lit "required"]], "subscription required"⟩,
  ⟨rcat [rchar '$', rplus rdigit, ropt (rcat [rchar '.', rdigit, rdigit]), ws0,
         ropt (rcat [lit "to", ws0]),
         ralts [lit "access", lit "view", lit "read", lit "download"]], "price to access"⟩,
  ⟨ralts [rcat [lit "purchase", anyStr, lit "access"],
          rcat [lit "buy", anyStr, lit "article"],
          rcat [lit "pay", anyStr, lit "view"]], "purchase required"⟩,
  ⟨ralts [lit "paywall", rcat [lit "payment", anyStr, lit "required"]], "paywall detected"⟩,
  ⟨ralts [rcat [lit "login", anyStr, lit "subscribe"],
          rcat [lit "sign", ws0, lit "in", anyStr, lit "subscribe"]], "login to subscribe"⟩,
  ⟨ralts [rcat [lit "member", ropt (rchar 's'), ws0, lit "only"],
          rcat [lit "member", ropt (rchar 's'), ws0, lit "exclusive"]], "members only"⟩,
  ⟨rcat [lit "become", ws0, lit "a", ws0, ralts [lit "member", lit "subscriber"]], "subscription prompt"⟩,
  ⟨rcat [lit "free", ws0, lit "trial", anyStr, lit "then", ws0, rchar '$'], "trial then paid"⟩,
  ⟨rcat [lit "upgrade", ws0, lit "to", ws0, ralts [lit "premium", lit "pro", lit "plus"]], "upgrade required"⟩,
  ⟨rcat [lit "limited", ws0, lit "access", anyStr, lit "subscribe"], "limited without subscription"⟩,
  ⟨ralts [rcat [lit "full", ws0, lit "text", anyStr, rchar '$'],
          rcat [lit "complete", ws0, lit "article", anyStr, rchar '$']], "paid full text"⟩,
  ⟨ralts [rcat [lit "price", anyStr, lit "download"],
          rcat [lit "cost", anyStr, lit "access"]], "paid download"⟩]

/-- `LOGIN_PATTERNS` of deep_url_validation.py. -/
def LOGIN_PATTERNS : List NamedPattern := [
  ⟨ralts [rcat [lit "sign", ws0, lit "in", anyStr, lit "continue"],
          rcat [lit "log", ws0, lit "in", anyStr, lit "continue"]], "login to continue"⟩,
  ⟨ralts [rcat [lit "authentication", anyStr, lit "required"],
          rcat [lit "login", anyStr, lit "required"]], "authentication required"⟩,
  ⟨ralts [rcat [lit "institutional", anyStr, lit "access"],
          rcat [lit "institution", anyStr, lit "login"]], "institutional access"⟩,
  ⟨rcat [lit "access", anyStr, lit "through", anyStr, lit "library"], "library access"⟩,
  ⟨ralts [rcat [lit "credentials", anyStr, lit "required"],
          rcat [lit "authorized", anyStr, lit "user", ropt (rchar 's'), ws0, lit "only"]], "credentials required"⟩,
  ⟨rcat [lit "please", ws0,
         ralts [rcat [lit "log", ws0, lit "in"], rcat [lit "sign", ws0, lit "in"]]], "login prompt"⟩,
  ⟨ralts [rcat [lit "restricted", anyStr, lit "access"],
          rcat [lit "access", anyStr, lit "restricted"]], "restricted access"⟩,
  ⟨ralts [rcat [lit "account", anyStr, lit "required"],
          rcat [lit "create", anyStr, lit "account"]], "account required"⟩,
  ⟨ralts [rcat [lit "university", anyStr, lit "access"],
          rcat [lit "academic", anyStr, lit "access"]], "academic access"⟩,
  ⟨ralts [rcat [lit "licensed", anyStr, lit "content"],
          rcat [lit "license", anyStr, lit "required"]], "licensed content"⟩]

/-- `PREVIEW_PATTERNS` of deep_url_validation.py. -/
def PREVIEW_PATTERNS : List NamedPattern := [
  ⟨ralts [rcat [lit "limited", ws0, lit "preview"],
          rcat [lit "preview", ws0, lit "only"]], "limited preview"⟩,
  ⟨ralts [rcat [lit "first", ws0, rplus rdigit, ws0, lit "page", ropt (rchar 's')],
          rcat [lit "sample", ws0, lit "page", ropt (rchar 's')]], "sample pages"⟩,
  ⟨ralts [lit "excerpt", rcat [lit "selected", ws0, lit "page", ropt (rchar 's')]], "excerpt only"⟩,
  ⟨rcat [lit "table", ws0, lit "of", ws0, lit "contents", ws0, lit "only"], "TOC only"⟩,
  ⟨ralts [rcat [lit "abstract", ws0, lit "only"],
          rcat [lit "summary", ws0, lit "only"]], "abstract only"⟩,
  ⟨ralts [rcat [lit "partial", ws0, lit "view"],
          rcat [lit "incomplete", ws0, lit "view"]], "partial view"⟩,
  ⟨ralts [rcat [lit "preview", ws0, lit "unavailable"],
          rcat [lit "full", ws0, lit "view", ws0, lit "not", ws0, lit "available"]], "no full view"⟩,
  ⟨ralts [rcat [rplus rdigit, ropt (rchar '%'), ws0, lit "visible"],
          rcat [rplus rdigit, ws0, lit "of", ws0, rplus rdigit, ws0, lit "pages"]], "percentage visible"⟩,
  ⟨ralts [rcat [lit "sample", ws0, lit "content"],
          rcat [lit "limited", ws0, lit "content"]], "sample content"⟩]

/-- `SOFT_404_PATTERNS` of deep_url_validation.py. -/
def SOFT_404_PATTERNS : List NamedPattern := [
  ⟨ralts [rcat [lit "404", anyStr, lit "not", ws0, lit "found"],
          rcat [lit "not", ws0, lit "found", anyStr, lit "404"]], "404 not found"⟩,
  ⟨ralts [rcat [lit "page", ws0, lit "not", ws0, lit "found"],
          rcat [lit "cannot", ws0, lit "find", anyStr, lit "page"]], "page not found"⟩,
  ⟨ralts [rcat [lit "sorry", anyStr, lit "couldn\x27t", ws0, lit "find"],
          rcat [lit "we", ws0, lit "couldn\x27t", ws0, lit "locate"]], "apology for not found"⟩,
  ⟨ralts [rcat [lit "oops", anyStr, lit "nothing", ws0, lit "here"],
          rcat [lit "there\x27s", ws0, lit "nothing", ws0, lit "here"]], "nothing here"⟩,
  ⟨ralts [rcat [lit "doi", ws0, lit "not", ws0, lit "found"],
          rcat [lit "doi", anyStr, lit "not", ws0, lit "available"]], "DOI not found"⟩,
  ⟨ralts [rcat [lit "document", ws0, lit "not", ws0, lit "found"],
          rcat [lit "article", ws0, lit "not", ws0, lit "available"]], "document unavailable"⟩,
  ⟨ralts [rcat [lit "item", ws0, lit "not", ws0, lit "found"],
          rcat [lit "handle", ws0, lit "not", ws0, lit "found"]], "item/handle not found"⟩,
  ⟨rcat [lit "<title>", .star (.cls (fun c => c ≠ '<')),
         ralts [lit "404", rcat [lit "not", ws0, lit "found"], lit "error"],
         .star (.cls (fun c => c ≠ '<')), lit "</title>"], "error in title"⟩]

/-- Result record of `detect_access_barriers` (the Python dict, whose keys
are fixed). -/
structure Barriers where
  paywall : Bool := false
  login : Bool := false
  preview : Bool := false
  soft_404 : Bool := false
  reason : String := "Accessible content"
  deriving DecidableEq

/-- `detect_access_barriers` of deep_url_validation.py: each `for` loop with
an early `return` at the first matching pattern is `List.find?` over the
corresponding table. -/
def detect_access_barriers (content : String) : Barriers :=
  match SOFT_404_PATTERNS.find? (fun p => p.pattern.search content) with
  | some p => { soft_404 := true, reason := "Soft 404 detected: " ++ p.name }
  | none =>
  match PAYWALL_PATTERNS.find? (fun p => p.pattern.search content) with
  | some p => { paywall := true, reason := "Paywall detected: " ++ p.name }
  | none =>
  match LOGIN_PATTERNS.find? (fun p => p.pattern.search content) with
  | some p => { login := true, reason := "Login required: " ++ p.name }
  | none =>
  match PREVIEW_PATTERNS.find? (fun p => p.pattern.search content) with
  | some p => { preview := true, reason := "Preview only: " ++ p.name }
  | none => {}

/-- `stop_words` of `verify_content_match_basic`. -/
def STOP_WORDS : List String :=
  ["the", "and", "of", "in", "a", "an", "to", "for", "on", "with", "by"]

/-- `verify_content_match_basic` of deep_url_validation.py: count how many of
the first ten significant citation words occur in the content;
`confidence = min(1.0, matches / 5)`, `matches` iff at least three hits. -/
def verify_content_match_basic (content citation : String) : Bool × Frac :=
  let citation_lower := pyLower citation
  let words := (pySplitWs citation_lower).filter
    (fun w => 3 < w.length && !(STOP_WORDS.contains w))
  let content_lower := pyLower content
  let hits : Nat := (words.take 10).countP (fun word => pyContains content_lower word)
  let confidence := Frac.min ⟨1, 1⟩ ⟨(hits : Int), 5⟩
  (3 ≤ hits, confidence)

/-- The outcome of the network interaction inside `fetch_with_redirects`:
either the response completed (with its decoded text and HTTP status), or
some exception — timeout, DNS failure, connection refused — was raised with
the given message. -/
inductive FetchAttempt where
  | completed (text : String) (status : Nat)
  | raised (message : String)

/-- The `(content, status, headers)` triple returned by
`fetch_with_redirects`; of the headers dict only the `error` key is ever
read, so it is modelled directly. -/
structure FetchOut where
  content : String
  status : Nat
  error : Option String
  deriving DecidableEq

/-- `fetch_with_redirects` of deep_url_validation.py: the `except Exception`
handler turns any raised exception into `("", 0, {error: str(e)})`. -/
def fetch_with_redirects : FetchAttempt → FetchOut
  | .completed t s => ⟨t, s, none⟩
  | .raised e => ⟨"", 0, some e⟩

/-- `ValidationResult` dataclass of deep_url_validation.py. -/
structure ValidationResult where
  valid : Bool
  accessible : Bool
  score : Int
  reason : String
  paywall : Bool := false
  login_required : Bool := false
  preview_only : Bool := false
  soft_404 : Bool := false
  confidence : Frac := ⟨0, 1⟩
  content_matches : Bool := false
  deriving DecidableEq

/-- `validate_url_deep` of deep_url_validation.py, for the `api_key=None`
code path (the AI content check is an external service; without a key the
source calls `verify_content_match_basic`).  The network outcome has already
been folded into `f` by `fetch_with_redirects`.  In the final return the
source computes `valid = score > 0` and `accessible = score >= 90`, written
out per branch below; `confidence`/`matches` are unset locals (hence `0` /
`false`) in every barrier branch. -/
def validate_url_deep (citation : String) (f : FetchOut) : ValidationResult :=
  if f.status = 0 then
    { valid := false, accessible := false, score := 0,
      reason := "Connection failed: " ++ f.error.getD "unknown error" }
  else if 400 ≤ f.status then
    { valid := false, accessible := false, score := 0,
      reason := "HTTP " ++ toString f.status ++ " error",
      soft_404 := decide (f.status = 404) }
  else
    let barriers := detect_access_barriers f.content
    if barriers.soft_404 then
      { valid := false, accessible := false, score := 0, reason := barriers.reason,
        paywall := barriers.paywall, login_required := barriers.login,
        preview_only := barriers.preview, soft_404 := barriers.soft_404 }
    else if barriers.preview then
      { valid := true, accessible := false, score := 40, reason := barriers.reason,
        paywall := barriers.paywall, login_required := barriers.login,
        preview_only := barriers.preview, soft_404 := barriers.soft_404 }
    else if barriers.paywall then
      { valid := true, accessible := false, score := 50, reason := barriers.reason,
        paywall := barriers.paywall, login_required := barriers.login,
        preview_only := barriers.preview, soft_404 := barriers.soft_404 }
    else if barriers.login then
      { valid := true, accessible := false, score := 60, reason := barriers.reason,
        paywall := barriers.paywall, login_required := barriers.login,
        preview_only := barriers.preview, soft_404 := barriers.soft_404 }
    else
      let mc := verify_content_match_basic f.content citation
      if mc.1 && Frac.lt ⟨7, 10⟩ mc.2 then
        { valid := true, accessible := true, score := 100,
          reason := "Accessible content with high confidence match (" ++ percentStr mc.2 ++ ")",
          paywall := barriers.paywall, login_required := barriers.login,
          preview_only := barriers.preview, soft_404 := barriers.soft_404,
          confidence := mc.2, content_matches := mc.1 }
      else
        { valid := true, accessible := true, score := 90, reason := barriers.reason,
          paywall := barriers.paywall, login_required := barriers.login,
          preview_only := barriers.preview, soft_404 := barriers.soft_404,
          confidence := mc.2, content_matches := mc.1 }

end DeepVal

-- ===========================================================================
-- §5  Production_Quality_Framework.py
-- ===========================================================================

/-- The `bibliographic_data` dict: author, title, year, publication.  The
base scorer never reads it; the Enhanced scorer and content matcher read
`title` and `author`. -/
structure Bib where
  author : String := ""
  title : String := ""
  year : String := ""
  publication : String := ""
  deriving DecidableEq

namespace PQF

/-- `URLScore` dataclass. -/
structure URLScore where
  total_score : Int
  domain_tier : String
  domain_score : Int
  content_type : String
  content_modifier : Int
  relationship_type : Option String := none
  relationship_score : Option Int := none
  confidence : String := "medium"
  reasoning : String := ""
  deriving DecidableEq

/-- `DOMAIN_TIER_SCORES` dict (every key the tier classifier can produce is
present, so the lookup never raises). -/
def DOMAIN_TIER_SCORES (tier : String) : Int :=
  if tier = "tier1_doi" then 95
  else if tier = "tier1_jstor" then 95
  else if tier = "tier1_edu" then 85
  else if tier = "tier1_gov" then 85
  else if tier = "tier1_archive" then 90
  else if tier = "tier2_publisher" then 80
  else if tier = "tier3_purchase" then 60
  else 50

/-- `CONTENT_TYPE_MODIFIERS.get(content_type, 0)`. -/
def CONTENT_TYPE_MODIFIERS (content_type : String) : Int :=
  if content_type = "doi_link" then 10
  else if content_type = "pdf" then 5
  else if content_type = "article_page" then 5
  else if content_type = "book_page" then 0
  else if content_type = "html_page" then 0
  else if content_type = "purchase_page" then -10
  else 0

/-- `RELATIONSHIP_TYPE_SCORES.get(relationship_type, 60)`. -/
def RELATIONSHIP_TYPE_SCORES (relationship_type : String) : Int :=
  if relationship_type = "review" then 95
  else if relationship_type = "scholarly_discussion" then 90
  else if relationship_type = "reference" then 85
  else if relationship_type = "archive" then 80
  else if relationship_type = "organization" then 75
  else if relationship_type = "news_media" then 70
  else 60

-- `QUALITY_THRESHOLDS` dict.
def auto_finalize_score : Int := 85
def human_review_score : Int := 70
def rejection_score : Int := 50
def primary_minimum : Int := 70
def secondary_minimum : Int := 65

/-- `_extract_domain`: `urlparse(url).netloc.replace('www.', '')` (the
`try`/`except` never fires since the parse below is total). -/
def extract_domain (url : String) : String :=
  String.mk (replaceWWW (netlocChars url.data))

/-- `_classify_domain_tier`. -/
def classify_domain_tier (domain : String) : String :=
  if domain = "" then "tier4_other"
  else if pyContains domain "doi.org" then "tier1_doi"
  else if pyContains domain "jstor.org" then "tier1_jstor"
  else if pyContains domain "archive.org" then "tier1_archive"
  else if pyEndsWith domain ".edu" then "tier1_edu"
  else if pyEndsWith domain ".gov" then "tier1_gov"
  else if pyContains domain "press" || pyContains domain "publisher" ||
          pyContains domain "publishing" then "tier2_publisher"
  else if pyEndsWith domain ".org" then "tier2_publisher"
  else if pyContains domain "amazon" || pyContains domain "google.com/books" then "tier3_purchase"
  else "tier4_other"

/-- `_classify_content_type`. -/
def classify_content_type (url : String) : String :=
  let url_lower := pyLower url
  if pyContains url_lower "doi.org" then "doi_link"
  else if pyEndsWith url_lower ".pdf" || pyContains url_lower "/pdf" then "pdf"
  else if pyContains url_lower "/article" || pyContains url_lower "/articles" then "article_page"
  else if pyContains url_lower "/book" || pyContains url_lower "/books" then "book_page"
  else if pyContains url_lower "amazon.com" || pyContains url_lower "google.com/books" then "purchase_page"
  else "html_page"

/-- `_classify_relationship_type`. -/
def classify_relationship_type (url domain : String) : String :=
  let url_lower := pyLower url
  if pyContains url_lower "review" || pyContains domain "jstor.org" then "review"
  else if pyEndsWith domain ".edu" || pyContains domain "scholar" ||
          pyContains domain "academic" then "scholarly_discussion"
  else if pyContains domain "stanford.edu" || pyContains domain "britannica" ||
          pyContains url_lower "encyclopedia" then "reference"
  else if pyContains domain "archive.org" || pyContains domain "repository" then "archive"
  else if pyContains domain "nytimes" || pyContains domain "washingtonpost" ||
          pyContains domain "news" || pyContains domain "guardian" then "news_media"
  else if pyEndsWith domain ".org" then "organization"
  else "other"

/-- `_determine_confidence`. -/
def determine_confidence (score : Int) (tier : String) : String :=
  if 90 ≤ score && pyStartsWith tier "tier1" then "high"
  else if 75 ≤ score then "medium"
  else "low"

/-- Python's `{n:+d}` format. -/
def signedIntStr (n : Int) : String :=
  if 0 ≤ n then "+" ++ toString n else toString n

/-- `_generate_primary_reasoning`. -/
def generate_primary_reasoning (domain tier : String) (domain_score : Int)
    (content_type : String) (content_modifier : Int) : String :=
  "Domain: " ++ domain ++ " (" ++ tier ++ ", base score: " ++ toString domain_score ++
  "); Content type: " ++ content_type ++ " (modifier: " ++ signedIntStr content_modifier ++ ")"

/-- `_generate_secondary_reasoning`. -/
def generate_secondary_reasoning (domain tier relationship_type : String)
    (relationship_score : Int) : String :=
  "Domain: " ++ domain ++ " (" ++ tier ++ "); Relationship: " ++ relationship_type ++
  " (score: " ++ toString relationship_score ++ ")"

/-- `URLQualityScorer.score_primary_url`. -/
def score_primary_url (url : String) (bibliographic_data : Bib) : URLScore :=
  if url = "" then
    { total_score := 0, domain_tier := "none", domain_score := 0,
      content_type := "none", content_modifier := 0, reasoning := "No URL provided" }
  else
    let domain := extract_domain url
    let tier := classify_domain_tier domain
    let domain_score := DOMAIN_TIER_SCORES tier
    let content_type := classify_content_type url
    let content_modifier := CONTENT_TYPE_MODIFIERS content_type
    let total_score := min 100 (max 0 (domain_score + content_modifier))
    { total_score, domain_tier := tier, domain_score, content_type, content_modifier,
      confidence := determine_confidence total_score tier,
      reasoning := generate_primary_reasoning domain tier domain_score content_type content_modifier }

/-- `URLQualityScorer.score_secondary_url` (`primary_url` is `None` when no
primary candidate exists, and a Python `str == None` comparison is false). -/
def score_secondary_url (url context : String) (primary_url : Option String) : URLScore :=
  if url = "" then
    { total_score := 0, domain_tier := "none", domain_score := 0,
      content_type := "none", content_modifier := 0, reasoning := "No URL provided" }
  else if primary_url = some url then
    { total_score := 0, domain_tier := "duplicate", domain_score := 0,
      content_type := "duplicate", content_modifier := 0,
      reasoning := "ERROR: Duplicate of primary URL" }
  else
    let domain := extract_domain url
    let tier := classify_domain_tier domain
    let relationship_type := classify_relationship_type url domain
    let relationship_score := RELATIONSHIP_TYPE_SCORES relationship_type
    let total_score := relationship_score
    { total_score, domain_tier := tier, domain_score := 0,
      content_type := "secondary", content_modifier := 0,
      relationship_type := some relationship_type,
      relationship_score := some relationship_score,
      confidence := determine_confidence total_score tier,
      reasoning := generate_secondary_reasoning domain tier relationship_type relationship_score }

/-- The dict returned by `predict_user_selection`, flattened (`primary` /
`secondary` / `recommendation` sub-dicts inlined with prefixed names). -/
structure PredictResult where
  primary_recommended : Option (String × URLScore)
  primary_all_scored : List (String × URLScore)
  primary_top_score : Int
  secondary_recommended : Option (String × URLScore)
  secondary_all_scored : List (String × URLScore)
  secondary_top_score : Int
  can_auto_finalize : Bool
  needs_human_review : Bool
  edge_cases : List String
  rec_confidence : String

/-- `URLQualityScorer.predict_user_selection`. -/
def predict_user_selection (primary_candidates : List (String × Bib))
    (secondary_candidates : List (String × String)) (context : String) : PredictResult :=
  let primary_scores := sortDesc (fun x => x.2.total_score)
    (primary_candidates.map (fun p => (p.1, score_primary_url p.1 p.2)))
  let primary_url : Option String := primary_scores.head?.map Prod.fst
  let secondary_scores := sortDesc (fun x => x.2.total_score)
    (secondary_candidates.map (fun p => (p.1, score_secondary_url p.1 p.2 primary_url)))
  let top_primary_score := (primary_scores.head?.map (fun x => x.2.total_score)).getD 0
  let top_secondary_score := (secondary_scores.head?.map (fun x => x.2.total_score)).getD 0
  let can_auto := decide (auto_finalize_score ≤ top_primary_score) &&
                  decide (auto_finalize_score ≤ top_secondary_score)
  let needs_review := decide (top_primary_score < human_review_score) ||
                      decide (top_secondary_score < human_review_score)
  let edge_cases :=
    (if 1 < primary_scores.countP (fun x => decide (85 ≤ x.2.total_score)) then
      ["Multiple high-quality primary options"] else []) ++
    (if top_primary_score < primary_minimum then
      ["No acceptable primary URL found"] else [])
  { primary_recommended := primary_scores.head?,
    primary_all_scored := primary_scores,
    primary_top_score := top_primary_score,
    secondary_recommended := secondary_scores.head?,
    secondary_all_scored := secondary_scores,
    secondary_top_score := top_secondary_score,
    can_auto_finalize := can_auto,
    needs_human_review := needs_review,
    edge_cases,
    rec_confidence := if can_auto then "high" else if !needs_review then "medium" else "low" }

end PQF

-- ===========================================================================
-- §6  Production_Quality_Framework_Enhanced.py
-- ===========================================================================

namespace Enhanced

/-- `PAYWALL_PATTERNS` of the Enhanced module (raw pattern strings, searched
against the lower-cased content). -/
def PAYWALL_PATTERNS : List Rx := [
  lit "subscribe to continue",
  lit "subscription required",
  lit "this article is available to subscribers",
  lit "purchase this article",
  lit "buy this article",
  rcat [rchar '$', rplus rdigit, rchar '.', rplus rdigit, lit " to access"],
  lit "you do not have access",
  lit "institutional subscription required",
  lit "paywall",
  lit "subscribe now",
  lit "sign up to read",
  lit "access through your institution"]

/-- `LOGIN_PATTERNS` of the Enhanced module. -/
def LOGIN_PATTERNS : List Rx := [
  lit "sign in to continue",
  lit "log in to view",
  lit "login required",
  lit "please log in",
  lit "you must be logged in",
  lit "authentication required",
  lit "access denied",
  lit "sign in to read",
  lit "create account to continue",
  lit "register to access"]

/-- `PREVIEW_PATTERNS` of the Enhanced module. -/
def PREVIEW_PATTERNS : List Rx := [
  lit "preview only",
  lit "limited preview",
  lit "read a preview",
  lit "sample pages",
  rcat [rplus rdigit, lit " pages shown"],
  rcat [lit "view ", rplus rdigit, lit " pages"],
  lit "continue reading with subscription",
  lit "preview this book",
  lit "pages displayed by permission"]

/-- `SOFT_404_PATTERNS` of the Enhanced module. -/
def SOFT_404_PATTERNS : List Rx := [
  ralts [rcat [lit "404", anyStr, lit "not found"], rcat [lit "not found", anyStr, lit "404"]],
  ralts [lit "page not found", lit "page cannot be found"],
  rcat [lit "sorry", anyStr, lit "couldn\x27t find", anyStr, lit "page"],
  ralts [rcat [lit "oops", anyStr, lit "nothing here"], lit "there\x27s nothing here"],
  ralts [lit "doi not found", rcat [lit "doi", anyStr, lit "cannot be found"]],
  ralts [lit "document not found", rcat [lit "document", anyStr, lit "not available"]],
  ralts [rcat [lit "item", anyStr, lit "not found"], rcat [lit "handle", anyStr, lit "not found"]],
  rcat [lit "<title>", .star (.cls (fun c => c ≠ '<')),
        ralts [lit "404", lit "not found", lit "error"],
        .star (.cls (fun c => c ≠ '<')), lit "</title>"]]

/-- The dict returned by `detect_access_barriers` (fixed keys; absent
optional keys read back through `.get(key, False)` are the defaults). -/
structure AccessCheck where
  accessible : Bool
  score : Int
  reason : String
  paywall : Bool := false
  login_required : Bool := false
  preview_only : Bool := false
  soft_404 : Bool := false
  deriving DecidableEq

/-- `detect_access_barriers` of the Enhanced module: the four pattern
families checked in order soft-404, paywall, login, preview over the
lower-cased content; each `for` loop's early `return` does not depend on
which pattern of the family matched, so it is `List.any`.  The `url`
argument is accepted and never read, as in the source. -/
def detect_access_barriers (content url : String) : AccessCheck :=
  let content_lower := pyLower content
  if SOFT_404_PATTERNS.any (fun p => p.searchChars content_lower.data) then
    { accessible := false, score := 0,
      reason := "Soft 404 detected - page not found", soft_404 := true }
  else if PAYWALL_PATTERNS.any (fun p => p.searchChars content_lower.data) then
    { accessible := false, score := 50, reason := "Paywall detected", paywall := true }
  else if LOGIN_PATTERNS.any (fun p => p.searchChars content_lower.data) then
    { accessible := false, score := 60, reason := "Login required", login_required := true }
  else if PREVIEW_PATTERNS.any (fun p => p.searchChars content_lower.data) then
    { accessible := false, score := 40,
      reason := "Preview only - full content not accessible", preview_only := true }
  else
    { accessible := true, score := 90, reason := "No access barriers detected" }

/-- The dict returned by `verify_content_match_basic` /
`verify_content_match_with_ai`. -/
structure MatchCheck where
  matches' : Bool
  confidence : Frac
  score : Int
  reason : String
  deriving DecidableEq

/-- The stop-word list of `verify_content_match_basic`'s title filter. -/
def TITLE_STOP_WORDS : List String := ["the", "and", "for", "with", "from"]

/-- `title_words` of `verify_content_match_basic` (argument is the already
lower-cased title). -/
def significant_title_words (title : String) : List String :=
  (pySplitWs title).filter (fun w => 3 < w.length && !(TITLE_STOP_WORDS.contains w))

/-- `title_confidence` of `verify_content_match_basic`: the fraction of
significant title words occurring in the content (`0` for an empty list). -/
def title_coverage (content : String) (reference : Bib) : Frac :=
  let content_lower := pyLower content
  let title := pyLower reference.title
  let tws := significant_title_words title
  let title_matches : Nat := tws.countP (fun w => pyContains content_lower w)
  if tws.isEmpty then ⟨0, 1⟩ else ⟨(title_matches : Int), (tws.length : Int)⟩

/-- `author_last` of `verify_content_match_basic`: text before the first
comma of the lower-cased author, stripped and lower-cased again. -/
def author_last_name (reference : Bib) : String :=
  let author := pyLower reference.author
  pyLower (pyStrip ((pySplitOn author ',').headD author))

/-- `author_match` of `verify_content_match_basic` (an empty author yields
the empty string, which Python's `in` finds in any content). -/
def author_found (content : String) (reference : Bib) : Bool :=
  pyContains (pyLower content) (author_last_name reference)

/-- `verify_content_match_basic` of the Enhanced module: 0.6 when at least
half the significant title words occur, plus 0.4 when the author surname
occurs; `matches` iff the sum reaches 0.5. -/
def verify_content_match_basic (content : String) (reference : Bib) : MatchCheck :=
  let title_confidence := title_coverage content reference
  let author_match := author_found content reference
  let confidence := Frac.add
    (if Frac.le ⟨1, 2⟩ title_confidence then ⟨6, 10⟩ else ⟨0, 10⟩)
    (if author_match then ⟨4, 10⟩ else ⟨0, 10⟩)
  { matches' := Frac.le ⟨1, 2⟩ confidence,
    confidence,
    score := (confidence.mul ⟨100, 1⟩).floor,
    reason := "Title match: " ++ percentStr title_confidence ++ ", Author match: " ++
              (if author_found content reference then "True" else "False") }

/-- `ValidationResult` dataclass of the Enhanced module (a duplicate of the
one in deep_url_validation.py). -/
structure ValidationResult where
  valid : Bool
  accessible : Bool
  score : Int
  reason : String
  paywall : Bool := false
  login_required : Bool := false
  preview_only : Bool := false
  soft_404 : Bool := false
  confidence : Frac := ⟨0, 1⟩
  content_matches : Bool := false
  deriving DecidableEq

/-- `validate_url_deep` of the Enhanced module.  Its `fetch_with_redirects`
returns `None` on any exception or HTTP status ≥ 400, and otherwise the
`(final_url, content)` pair; that outcome is the `fetched` argument.  The
content check is the deterministic no-API-key path: the source's
`verify_content_match_with_ai` falls back to `verify_content_match_basic`
whenever `ANTHROPIC_API_KEY` is absent or the external call fails. -/
def validate_url_deep (fetched : Option (String × String)) (reference : Bib) : ValidationResult :=
  match fetched with
  | none =>
    { valid := false, accessible := false, score := 0,
      reason := "Failed to fetch URL (timeout or error)", confidence := ⟨1, 1⟩ }
  | some (final_url, content) =>
    let access_check := detect_access_barriers content final_url
    if !access_check.accessible then
      { valid := false, accessible := false, score := access_check.score,
        reason := access_check.reason, paywall := access_check.paywall,
        login_required := access_check.login_required,
        preview_only := access_check.preview_only,
        soft_404 := access_check.soft_404, confidence := ⟨9, 10⟩ }
    else
      let content_match := verify_content_match_basic content reference
      if !content_match.matches' then
        { valid := false, accessible := true, score := content_match.score,
          reason := "Content mismatch: " ++ content_match.reason,
          confidence := content_match.confidence, content_matches := false }
      else
        { valid := true, accessible := true,
          score := min 100 (90 + (content_match.confidence.mul ⟨10, 1⟩).floor),
          reason := "Accessible and verified: " ++ content_match.reason,
          confidence := content_match.confidence, content_matches := true }

/-- `EnhancedURLQualityScorer.PRIMARY_REJECTION_PHRASES`. -/
def PRIMARY_REJECTION_PHRASES : List String :=
  ["review of", ": a review", "book review", "analysis of", "critique of",
   "commentary on", "discussion of", "response to", "examining", "evaluating",
   "assessing", "essay on", "thoughts on"]

/-- `EnhancedURLQualityScorer.PAYWALL_DOMAINS` (the class attribute; distinct
from the longer list in analyze_existing_urls.py). -/
def PAYWALL_DOMAINS : List String :=
  ["jstor.org", "sciencedirect.com", "springer.com", "wiley.com",
   "tandfonline.com", "sagepub.com", "cambridge.org", "oxfordjournals.org",
   "journals.uchicago.edu"]

/-- `EnhancedURLQualityScorer._check_paywall`: 10-point penalty on a known
paywall domain, else 0. -/
def check_paywall (url : String) : Int :=
  let domain := PQF.extract_domain url
  if PAYWALL_DOMAINS.any (fun pd => pyContains domain pd) then 10 else 0

/-- The stop-word list of `_check_title_for_primary`'s expected-word filter. -/
def EXPECTED_TITLE_STOP_WORDS : List String := ["the", "and", "for", "with"]

/-- `EnhancedURLQualityScorer._check_title_for_primary`: 40 for
review/analysis phrasing, else 20 when no expected title word occurs in the
candidate title, 10 when fewer than half do, 0 otherwise. -/
def check_title_for_primary (candidate_title : String) (bibliographic_data : Bib) : Int :=
  if candidate_title = "" then 0
  else
    let title_lower := pyLower candidate_title
    if PRIMARY_REJECTION_PHRASES.any (fun phrase => pyContains title_lower phrase) then 40
    else
      let expected_title := pyLower bibliographic_data.title
      if expected_title = "" then 0
      else
        let expected_words := ((pySplitWs expected_title).take 5).filter
          (fun w => 3 < w.length && !(EXPECTED_TITLE_STOP_WORDS.contains w))
        let hits := expected_words.countP (fun w => pyContains title_lower w)
        if hits = 0 then 20
        else if Frac.lt ⟨(hits : Int), 1⟩ ⟨(expected_words.length : Int), 2⟩ then 10
        else 0

/-- Outcome of the `requests.get` inside `_verify_content_for_primary`:
either a response (status code and the up-to-10KB of text read from it) or a
raised exception. -/
inductive ContentFetchAttempt where
  | completed (status_code : Nat) (content : String)
  | raised (message : String)

/-- `review_patterns` of `_verify_content_for_primary`. -/
def REVIEW_PATTERNS : List Rx := [
  rcat [lit "this ", ralts [lit "book", lit "article", lit "paper", lit "work"],
        lit " ", ralts [lit "review", lit "critiques", lit "analyzes", lit "examines"]],
  rcat [ralts [lit "review", lit "analysis", lit "critique"], lit " of"],
  rcat [lit "the author ", ralts [lit "argues", lit "claims", lit "suggests", lit "proposes"]],
  rcat [ralts [lit "in this", lit "this"], lit " ",
        ralts [lit "review", lit "analysis", lit "commentary"]],
  rcat [lit "reviewer\x27", ropt (rchar 's'), lit " ",
        ralts [lit "note", lit "comment", lit "opinion"]]]

/-- `work_indicators` of `_verify_content_for_primary`. -/
def WORK_INDICATORS : List String :=
  ["chapter", "contents", "table of contents", "introduction", "preface",
   "copyright", "published by"]

/-- `EnhancedURLQualityScorer._verify_content_for_primary`: 0 on any fetch
failure or non-200 status, 30 when a review pattern matches, 15 when no
work indicator occurs, 0 otherwise. -/
def verify_content_for_primary (att : ContentFetchAttempt) : Int :=
  match att with
  | .raised _ => 0
  | .completed status_code content =>
    if status_code ≠ 200 then 0
    else
      let content_lower := pyLower content
      if REVIEW_PATTERNS.any (fun p => p.searchChars content_lower.data) then 30
      else
        let work_indicator_count := WORK_INDICATORS.countP (fun w => pyContains content_lower w)
        if 3 ≤ work_indicator_count then 0
        else if work_indicator_count = 0 then 15
        else 0

/-- `EnhancedURLQualityScorer.score_primary_url`: the base score minus the
title, paywall and (when content fetching is enabled and the base score is
at least 75) content penalties, clamped to [0, 100].  `content_fetch` is the
outcome of the network interaction `_verify_content_for_primary` would
perform. -/
def score_primary_url (enable_content_fetching : Bool)
    (content_fetch : ContentFetchAttempt) (url : String)
    (bibliographic_data : Bib) (candidate_title : String) : PQF.URLScore :=
  let base_score := PQF.score_primary_url url bibliographic_data
  let title_penalty := check_title_for_primary candidate_title bibliographic_data
  let paywall_penalty := check_paywall url
  let content_penalty :=
    if enable_content_fetching && decide (75 ≤ base_score.total_score) then
      verify_content_for_primary content_fetch
    else 0
  let final_score := max 0 (min 100
    (base_score.total_score - title_penalty - paywall_penalty - content_penalty))
  let reasoning_parts := [base_score.reasoning] ++
    (if 0 < title_penalty then
      ["Title penalty: -" ++ toString title_penalty ++ " (appears to be review/analysis)"] else []) ++
    (if 0 < paywall_penalty then
      ["Paywall penalty: -" ++ toString paywall_penalty ++ " (prefer free alternatives)"] else []) ++
    (if 0 < content_penalty then
      ["Content penalty: -" ++ toString content_penalty ++ " (content doesn\x27t match expected work)"] else [])
  { base_score with
    total_score := final_score,
    confidence := PQF.determine_confidence final_score base_score.domain_tier,
    reasoning := String.intercalate "; " reasoning_parts }

end Enhanced

-- ===========================================================================
-- §7  analyze_existing_urls.py
-- ===========================================================================

namespace AEU

/-- `PAYWALL_DOMAINS` of analyze_existing_urls.py. -/
def PAYWALL_DOMAINS : List String :=
  ["jstor.org", "science.org", "sciencedirect.com", "springer.com",
   "springerlink.com", "wiley.com", "tandfonline.com", "sagepub.com",
   "cambridge.org", "oxfordjournals.org", "journals.uchicago.edu",
   "taylorfrancis.com", "emerald.com", "academic.oup.com"]

/-- `FREE_DOMAINS` of analyze_existing_urls.py. -/
def FREE_DOMAINS : List String :=
  ["archive.org", "arxiv.org", "researchgate.net", "academia.edu",
   "ssrn.com", "plos.org", "doi.org/10.1371", "ncbi.nlm.nih.gov",
   "europepmc.org"]

/-- `extract_domain`: `urlparse(url).netloc.lower().replace('www.', '')`. -/
def extract_domain (url : String) : String :=
  String.mk (replaceWWW (lowerChars (netlocChars url.data)))

/-- The tier-rule fallthrough of `classify_url` (its final four checks),
stated separately so that classification outside the curated lists can be
related to it. -/
def classify_url_tier_rules (url : String) : String × String :=
  let domain := extract_domain url
  if pyContains domain ".edu" then ("unknown", "likely_free")
  else if pyContains domain ".gov" then ("free", "likely_free")
  else if pyContains domain "press" || pyContains domain "publisher" ||
          pyContains domain "books" || pyContains domain "amazon" ||
          pyContains domain "google.com/books" then ("unknown", "uncertain")
  else ("unknown", "uncertain")

/-- `classify_url` of analyze_existing_urls.py.  The paywall loop's body
does not depend on which curated domain matched (its special case re-tests
`jstor.org` in the domain / `doi.org` in the URL), so both loops are
`List.any`. -/
def classify_url (url : String) : String × String :=
  let domain := extract_domain url
  if PAYWALL_DOMAINS.any (fun pd => pyContains domain pd) then
    if pyContains domain "jstor.org" || pyContains url "doi.org" then
      ("paywall", "institutional")
    else ("paywall", "likely_paywalled")
  else if FREE_DOMAINS.any (fun fd => pyContains domain fd) then ("free", "likely_free")
  else if pyContains domain ".edu" then ("unknown", "likely_free")
  else if pyContains domain ".gov" then ("free", "likely_free")
  else if pyContains domain "press" || pyContains domain "publisher" ||
          pyContains domain "books" || pyContains domain "amazon" ||
          pyContains domain "google.com/books" then ("unknown", "uncertain")
  else ("unknown", "uncertain")

end AEU

-- ===========================================================================
-- §8  Helper lemmas
-- ===========================================================================

theorem mem_insertDesc {α : Type} (key : α → Int) (x y : α) (l : List α) :
    y ∈ insertDesc key x l ↔ y = x ∨ y ∈ l := by
  induction l with
  | nil => simp [insertDesc]
  | cons a t ih =>
    simp only [insertDesc]
    split <;> simp only [List.mem_cons, ih] <;> tauto

theorem mem_sortDesc {α : Type} (key : α → Int) (y : α) (l : List α) :
    y ∈ sortDesc key l ↔ y ∈ l := by
  induction l with
  | nil => simp [sortDesc]
  | cons a t ih =>
    simp only [sortDesc, mem_insertDesc, List.mem_cons, ih]

theorem countP_insertDesc {α : Type} (key : α → Int) (x : α) (l : List α) (p : α → Bool) :
    (insertDesc key x l).countP p = l.countP p + (if p x then 1 else 0) := by
  induction l with
  | nil =>
    cases hp : p x <;> simp [insertDesc, List.countP_cons, hp]
  | cons a t ih =>
    simp only [insertDesc]
    split <;> simp only [List.countP_cons, ih] <;> omega

theorem countP_sortDesc {α : Type} (key : α → Int) (l : List α) (p : α → Bool) :
    (sortDesc key l).countP p = l.countP p := by
  induction l with
  | nil => rfl
  | cons a t ih => simp only [sortDesc, countP_insertDesc, ih, List.countP_cons]

theorem head_max_sortDesc {α : Type} (key : α → Int) (l : List α) (x : α)
    (hx : (sortDesc key l).head? = some x) : ∀ y ∈ l, key y ≤ key x := by
  induction l generalizing x with
  | nil => simp [sortDesc] at hx
  | cons a t ih =>
    intro y hy
    rw [List.mem_cons] at hy
    simp only [sortDesc] at hx
    rcases hst : sortDesc key t with _ | ⟨b, bs⟩ <;> rw [hst] at hx
    · simp only [insertDesc, List.head?_cons, Option.some.injEq] at hx
      subst hx
      rcases hy with hy | hyt
      · exact le_of_eq (by rw [hy])
      · exfalso
        have hmem : y ∈ sortDesc key t := (mem_sortDesc key y t).mpr hyt
        rw [hst] at hmem
        exact absurd hmem (List.not_mem_nil y)
    · simp only [insertDesc] at hx
      by_cases hba : key b ≤ key a
      · rw [if_pos hba] at hx
        simp only [List.head?_cons, Option.some.injEq] at hx
        subst hx
        rcases hy with hy | hyt
        · exact le_of_eq (by rw [hy])
        · have hb := ih b (by rw [hst]; rfl) y hyt
          omega
      · rw [if_neg hba] at hx
        simp only [List.head?_cons, Option.some.injEq] at hx
        subst hx
        rcases hy with hy | hyt
        · rw [hy]; omega
        · exact ih b (by rw [hst]; rfl) y hyt

theorem head_mem_sortDesc {α : Type} (key : α → Int) (l : List α) (x : α)
    (hx : (sortDesc key l).head? = some x) : x ∈ l := by
  rcases hs : sortDesc key l with _ | ⟨b, bs⟩
  · rw [hs] at hx; simp at hx
  · rw [hs] at hx
    simp only [List.head?_cons, Option.some.injEq] at hx
    subst hx
    exact (mem_sortDesc key b l).mp (by rw [hs]; exact List.mem_cons_self b bs)

theorem relationship_score_ge (s : String) : 60 ≤ PQF.RELATIONSHIP_TYPE_SCORES s := by
  unfold PQF.RELATIONSHIP_TYPE_SCORES
  split_ifs <;> norm_num

-- ===========================================================================
-- §9  The claims
-- ===========================================================================

/-- C1: for every body text in which some soft-404 pattern matches,
`detect_access_barriers` reports a soft-404 finding carrying the matched
rule's descriptive name, even when paywall, login or preview patterns also
match; the four families are evaluated in the fixed order soft-404, paywall,
login, preview, the first family with a matching pattern determines the
single finding, and if no family matches the finding is NONE (all flags
false, reason `Accessible content`). -/
theorem c1_barrier_priority (content : String) :
    ((∃ p ∈ DeepVal.SOFT_404_PATTERNS, p.pattern.search content = true) →
      ∃ p ∈ DeepVal.SOFT_404_PATTERNS, p.pattern.search content = true ∧
        DeepVal.detect_access_barriers content =
          { soft_404 := true, reason := "Soft 404 detected: " ++ p.name }) ∧
    ((∀ p ∈ DeepVal.SOFT_404_PATTERNS, p.pattern.search content = false) →
     (∃ p ∈ DeepVal.PAYWALL_PATTERNS, p.pattern.search content = true) →
      ∃ p ∈ DeepVal.PAYWALL_PATTERNS, p.pattern.search content = true ∧
        DeepVal.detect_access_barriers content =
          { paywall := true, reason := "Paywall detected: " ++ p.name }) ∧
    ((∀ p ∈ DeepVal.SOFT_404_PATTERNS, p.pattern.search content = false) →
     (∀ p ∈ DeepVal.PAYWALL_PATTERNS, p.pattern.search content = false) →
     (∃ p ∈ DeepVal.LOGIN_PATTERNS, p.pattern.search content = true) →
      ∃ p ∈ DeepVal.LOGIN_PATTERNS, p.pattern.search content = true ∧
        DeepVal.detect_access_barriers content =
          { login := true, reason := "Login required: " ++ p.name }) ∧
    ((∀ p ∈ DeepVal.SOFT_404_PATTERNS, p.pattern.search content = false) →
     (∀ p ∈ DeepVal.PAYWALL_PATTERNS, p.pattern.search content = false) →
     (∀ p ∈ DeepVal.LOGIN_PATTERNS, p.pattern.search content = false) →
     (∃ p ∈ DeepVal.PREVIEW_PATTERNS, p.pattern.search content = true) →
      ∃ p ∈ DeepVal.PREVIEW_PATTERNS, p.pattern.search content = true ∧
        DeepVal.detect_access_barriers content =
          { preview := true, reason := "Preview only: " ++ p.name }) ∧
    ((∀ p ∈ DeepVal.SOFT_404_PATTERNS, p.pattern.search content = false) →
     (∀ p ∈ DeepVal.PAYWALL_PATTERNS, p.pattern.search content = false) →
     (∀ p ∈ DeepVal.LOGIN_PATTERNS, p.pattern.search content = false) →
     (∀ p ∈ DeepVal.PREVIEW_PATTERNS, p.pattern.search content = false) →
      DeepVal.detect_access_barriers content =
        { paywall := false, login := false, preview := false, soft_404 := false,
          reason := "Accessible content" }) := by
  have none_of (L : List DeepVal.NamedPattern)
      (h : ∀ p ∈ L, p.pattern.search content = false) :
      L.find? (fun p => p.pattern.search content) = none :=
    List.find?_eq_none.mpr (fun x hx => by simp [h x hx])
  refine ⟨?_, ?_, ?_, ?_, ?_⟩
  · intro h
    obtain ⟨q, hq⟩ := Option.isSome_iff_exists.mp (List.find?_isSome.mpr h)
    have hsq := List.find?_some hq
    exact ⟨q, List.mem_of_find?_eq_some hq, hsq,
      by simp only [DeepVal.detect_access_barriers, hq]⟩
  · intro h0 h
    obtain ⟨q, hq⟩ := Option.isSome_iff_exists.mp (List.find?_isSome.mpr h)
    have hsq := List.find?_some hq
    exact ⟨q, List.mem_of_find?_eq_some hq, hsq,
      by simp only [DeepVal.detect_access_barriers, none_of _ h0, hq]⟩
  · intro h0 h1 h
    obtain ⟨q, hq⟩ := Option.isSome_iff_exists.mp (List.find?_isSome.mpr h)
    have hsq := List.find?_some hq
    exact ⟨q, List.mem_of_find?_eq_some hq, hsq,
      by simp only [DeepVal.detect_access_barriers, none_of _ h0, none_of _ h1, hq]⟩
  · intro h0 h1 h2 h
    obtain ⟨q, hq⟩ := Option.isSome_iff_exists.mp (List.find?_isSome.mpr h)
    have hsq := List.find?_some hq
    exact ⟨q, List.mem_of_find?_eq_some hq, hsq,
      by simp only [DeepVal.detect_access_barriers, none_of _ h0, none_of _ h1,
                    none_of _ h2, hq]⟩
  · intro h0 h1 h2 h3
    simp only [DeepVal.detect_access_barriers, none_of _ h0, none_of _ h1,
               none_of _ h2, none_of _ h3]

/-- Witness for C1: a body matching both a soft-404 pattern and a paywall
pattern is reported as soft-404. -/
theorem c1_barrier_priority_witness :
    (∃ p ∈ DeepVal.SOFT_404_PATTERNS,
        p.pattern.search "Sorry, page not found. Please subscribe to continue." = true ∧
        DeepVal.detect_access_barriers "Sorry, page not found. Please subscribe to continue." =
          { soft_404 := true, reason := "Soft 404 detected: " ++ p.name }) ∧
    (∃ p ∈ DeepVal.PAYWALL_PATTERNS,
        p.pattern.search "Sorry, page not found. Please subscribe to continue." = true) :=
  ⟨(c1_barrier_priority "Sorry, page not found. Please subscribe to continue.").1 (by decide),
   by decide⟩

/-- C2 counterexample: the claimed strict ordering fails at its bottom end —
a soft-404 page and a failed fetch are both scored 0, so the soft-404 score
is not strictly greater than the fetch-failed score. -/
theorem c2_strict_order_counterexample :
    (DeepVal.validate_url_deep "Smith (2020). Alpha. J."
        ⟨"404 error: page not found", 200, none⟩).soft_404 = true ∧
    (DeepVal.validate_url_deep "Smith (2020). Alpha. J."
        ⟨"404 error: page not found", 200, none⟩).score = 0 ∧
    (DeepVal.validate_url_deep "Smith (2020). Alpha. J."
        (DeepVal.fetch_with_redirects (.raised "connection refused"))).score = 0 ∧
    ¬((DeepVal.validate_url_deep "Smith (2020). Alpha. J."
        ⟨"404 error: page not found", 200, none⟩).score >
      (DeepVal.validate_url_deep "Smith (2020). Alpha. J."
        (DeepVal.fetch_with_redirects (.raised "connection refused"))).score) := by
  decide

/-- C2 as amended: the score bands of `validate_url_deep` are fixed —
verified content 100, unverified accessible content 90, login wall 60,
paywall 50, preview-only 40, soft-404 0 and fetch-failed 0 — so the chain is
strictly decreasing except at its bottom end, where soft-404 and fetch-failed
share the score 0. -/
theorem c2_scoring_bands (citation : String) (f : DeepVal.FetchOut) :
    (f.status = 0 →
      (DeepVal.validate_url_deep citation f).score = 0 ∧
      (DeepVal.validate_url_deep citation f).accessible = false) ∧
    (f.status ≠ 0 → 400 ≤ f.status →
      (DeepVal.validate_url_deep citation f).score = 0 ∧
      (DeepVal.validate_url_deep citation f).accessible = false) ∧
    (f.status ≠ 0 → f.status < 400 →
      (DeepVal.detect_access_barriers f.content).soft_404 = true →
      (DeepVal.validate_url_deep citation f).score = 0 ∧
      (DeepVal.validate_url_deep citation f).accessible = false) ∧
    (f.status ≠ 0 → f.status < 400 →
      (DeepVal.detect_access_barriers f.content).soft_404 = false →
      (DeepVal.detect_access_barriers f.content).preview = true →
      (DeepVal.validate_url_deep citation f).score = 40 ∧
      (DeepVal.validate_url_deep citation f).accessible = false) ∧
    (f.status ≠ 0 → f.status < 400 →
      (DeepVal.detect_access_barriers f.content).soft_404 = false →
      (DeepVal.detect_access_barriers f.content).preview = false →
      (DeepVal.detect_access_barriers f.content).paywall = true →
      (DeepVal.validate_url_deep citation f).score = 50 ∧
      (DeepVal.validate_url_deep citation f).accessible = false) ∧
    (f.status ≠ 0 → f.status < 400 →
      (DeepVal.detect_access_barriers f.content).soft_404 = false →
      (DeepVal.detect_access_barriers f.content).preview = false →
      (DeepVal.detect_access_barriers f.content).paywall = false →
      (DeepVal.detect_access_barriers f.content).login = true →
      (DeepVal.validate_url_deep citation f).score = 60 ∧
      (DeepVal.validate_url_deep citation f).accessible = false) ∧
    (f.status ≠ 0 → f.status < 400 →
      (DeepVal.detect_access_barriers f.content).soft_404 = false →
      (DeepVal.detect_access_barriers f.content).preview = false →
      (DeepVal.detect_access_barriers f.content).paywall = false →
      (DeepVal.detect_access_barriers f.content).login = false →
      ((DeepVal.verify_content_match_basic f.content citation).1 &&
        Frac.lt ⟨7, 10⟩ (DeepVal.verify_content_match_basic f.content citation).2) = false →
      (DeepVal.validate_url_deep citation f).score = 90 ∧
      (DeepVal.validate_url_deep citation f).accessible = true) ∧
    (f.status ≠ 0 → f.status < 400 →
      (DeepVal.detect_access_barriers f.content).soft_404 = false →
      (DeepVal.detect_access_barriers f.content).preview = false →
      (DeepVal.detect_access_barriers f.content).paywall = false →
      (DeepVal.detect_access_barriers f.content).login = false →
      ((DeepVal.verify_content_match_basic f.content citation).1 &&
        Frac.lt ⟨7, 10⟩ (DeepVal.verify_content_match_basic f.content citation).2) = true →
      (DeepVal.validate_url_deep citation f).score = 100 ∧
      (DeepVal.validate_url_deep citation f).accessible = true) := by
  refine ⟨?_, ?_, ?_, ?_, ?_, ?_, ?_, ?_⟩
  · intro h
    simp [DeepVal.validate_url_deep, h]
  · intro h h4
    simp [DeepVal.validate_url_deep, h, h4]
  · intro h h4 hs
    have h4n : ¬ 400 ≤ f.status := by omega
    simp [DeepVal.validate_url_deep, h, h4n, hs]
  · intro h h4 hs hv
    have h4n : ¬ 400 ≤ f.status := by omega
    simp [DeepVal.validate_url_deep, h, h4n, hs, hv]
  · intro h h4 hs hv hp
    have h4n : ¬ 400 ≤ f.status := by omega
    simp [DeepVal.validate_url_deep, h, h4n, hs, hv, hp]
  · intro h h4 hs hv hp hl
    have h4n : ¬ 400 ≤ f.status := by omega
    simp [DeepVal.validate_url_deep, h, h4n, hs, hv, hp, hl]
  · intro h h4 hs hv hp hl hm
    have h4n : ¬ 400 ≤ f.status := by omega
    simp [DeepVal.validate_url_deep, h, h4n, hs, hv, hp, hl, hm]
  · intro h h4 hs hv hp hl hm
    have h4n : ¬ 400 ≤ f.status := by omega
    simp [DeepVal.validate_url_deep, h, h4n, hs, hv, hp, hl, hm]

/-- Witness for C2 as amended: a timed-out fetch scores 0, a soft-404 body
scores 0, a preview-only body scores 40. -/
theorem c2_scoring_bands_witness :
    (DeepVal.validate_url_deep "Smith (2020). Alpha. J."
        (DeepVal.fetch_with_redirects (.raised "timeout"))).score = 0 ∧
    (DeepVal.validate_url_deep "Smith (2020). Alpha. J."
        ⟨"page not found", 200, none⟩).score = 0 ∧
    (DeepVal.validate_url_deep "Smith (2020). Alpha. J."
        ⟨"limited preview", 200, none⟩).score = 40 :=
  ⟨((c2_scoring_bands "Smith (2020). Alpha. J."
      (DeepVal.fetch_with_redirects (.raised "timeout"))).1 (by decide)).1,
   ((c2_scoring_bands "Smith (2020). Alpha. J." ⟨"page not found", 200, none⟩).2.2.1
      (by decide) (by decide) (by decide)).1,
   ((c2_scoring_bands "Smith (2020). Alpha. J." ⟨"limited preview", 200, none⟩).2.2.2.1
      (by decide) (by decide) (by decide) (by decide)).1⟩

/-- C4: every fetch that raises (timeout, DNS failure, connection refused)
is recovered by `fetch_with_redirects` as a `FetchResult` with the error set
and an empty body — the embedded handler is total, no exception reaches the
caller — and `validate_url_deep` turns it into score 0, not accessible, not
valid. -/
theorem c4_fetch_failure_recovered (e citation : String) :
    (DeepVal.fetch_with_redirects (.raised e)).content = "" ∧
    (DeepVal.fetch_with_redirects (.raised e)).error = some e ∧
    (DeepVal.validate_url_deep citation (DeepVal.fetch_with_redirects (.raised e))).score = 0 ∧
    (DeepVal.validate_url_deep citation (DeepVal.fetch_with_redirects (.raised e))).accessible = false ∧
    (DeepVal.validate_url_deep citation (DeepVal.fetch_with_redirects (.raised e))).valid = false := by
  refine ⟨rfl, rfl, ?_, ?_, ?_⟩ <;>
    simp [DeepVal.validate_url_deep, DeepVal.fetch_with_redirects]

/-- C5: ranking with an empty candidate list returns an empty selection (no
primary, no secondary), `needs_human_review = true`, and the explanatory
edge-case reason, rather than raising (the embedded function is total). -/
theorem c5_rank_empty_candidates (context : String) :
    (PQF.predict_user_selection [] [] context).primary_recommended = none ∧
    (PQF.predict_user_selection [] [] context).secondary_recommended = none ∧
    (PQF.predict_user_selection [] [] context).needs_human_review = true ∧
    (PQF.predict_user_selection [] [] context).edge_cases =
      ["No acceptable primary URL found"] :=
  ⟨rfl, rfl, rfl, rfl⟩

/-- C3: when no access barrier is detected and the basic content-match
confidence is at least 0.7, the verdict's score is 90 plus up to 10 points
scaled by the confidence and capped at 100, and the verdict is valid,
accessible and content-verified. -/
theorem c3_verified_content_score (final_url content : String) (reference : Bib)
    (hacc : (Enhanced.detect_access_barriers content final_url).accessible = true)
    (hconf : Frac.le ⟨7, 10⟩
      (Enhanced.verify_content_match_basic content reference).confidence = true) :
    (Enhanced.validate_url_deep (some (final_url, content)) reference).score =
      min 100 (90 +
        ((Enhanced.verify_content_match_basic content reference).confidence.mul ⟨10, 1⟩).floor) ∧
    90 ≤ (Enhanced.validate_url_deep (some (final_url, content)) reference).score ∧
    (Enhanced.validate_url_deep (some (final_url, content)) reference).score ≤ 100 ∧
    (Enhanced.validate_url_deep (some (final_url, content)) reference).accessible = true ∧
    (Enhanced.validate_url_deep (some (final_url, content)) reference).content_matches = true ∧
    (Enhanced.validate_url_deep (some (final_url, content)) reference).valid = true := by
  have key : (Enhanced.verify_content_match_basic content reference).confidence = ⟨100, 100⟩ ∧
      (Enhanced.verify_content_match_basic content reference).matches' = true := by
    unfold Enhanced.verify_content_match_basic at hconf ⊢
    cases hA : Frac.le ⟨1, 2⟩ (Enhanced.title_coverage content reference) <;>
      cases hB : Enhanced.author_found content reference <;>
      simp only [hA, hB, if_true, if_false, Bool.false_eq_true, ite_true, ite_false] at hconf ⊢
    · exact absurd hconf (by decide)
    · exact absurd hconf (by decide)
    · exact absurd hconf (by decide)
    · exact ⟨by decide, by decide⟩
  obtain ⟨kc, km⟩ := key
  refine ⟨?_, ?_, ?_, ?_, ?_, ?_⟩ <;>
    simp only [Enhanced.validate_url_deep, hacc, km, kc, Bool.not_true,
      Bool.false_eq_true, if_false] <;>
    decide

/-- Witness for C3: a clean page containing the title words and the author
surname validates at score 100 = min 100 (90 + 10). -/
theorem c3_verified_content_score_witness :
    (Enhanced.validate_url_deep
        (some ("u", "the quantum entanglement experiments of smith"))
        { author := "Smith, J.", title := "Quantum Entanglement Experiments" }).accessible = true ∧
    (Enhanced.validate_url_deep
        (some ("u", "the quantum entanglement experiments of smith"))
        { author := "Smith, J.", title := "Quantum Entanglement Experiments" }).score =
      min 100 (90 + ((Enhanced.verify_content_match_basic
        "the quantum entanglement experiments of smith"
        { author := "Smith, J.", title := "Quantum Entanglement Experiments" }).confidence.mul
          ⟨10, 1⟩).floor) :=
  ⟨(c3_verified_content_score "u" "the quantum entanglement experiments of smith"
      { author := "Smith, J.", title := "Quantum Entanglement Experiments" }
      (by decide) (by decide)).2.2.2.1,
   (c3_verified_content_score "u" "the quantum entanglement experiments of smith"
      { author := "Smith, J.", title := "Quantum Entanglement Experiments" }
      (by decide) (by decide)).1⟩

/-- C6: no curated free-access domain is classified as a paywall domain, no
curated paywall domain is classified as free, the two curated lists are
disjoint, and a URL whose domain matches neither list is classified exactly
by the tier-rule fallthrough. -/
theorem c6_curated_lists :
    (∀ d ∈ AEU.FREE_DOMAINS,
      (AEU.classify_url ("https://" ++ d ++ "/page")).1 ≠ "paywall") ∧
    (∀ d ∈ AEU.PAYWALL_DOMAINS,
      (AEU.classify_url ("https://" ++ d ++ "/page")).1 ≠ "free") ∧
    (∀ d ∈ AEU.FREE_DOMAINS, d ∉ AEU.PAYWALL_DOMAINS) ∧
    (∀ url : String,
      (∀ pd ∈ AEU.PAYWALL_DOMAINS, pyContains (AEU.extract_domain url) pd = false) →
      (∀ fd ∈ AEU.FREE_DOMAINS, pyContains (AEU.extract_domain url) fd = false) →
      AEU.classify_url url = AEU.classify_url_tier_rules url) := by
  refine ⟨by decide, by decide, by decide, ?_⟩
  intro url h1 h2
  have e1 : AEU.PAYWALL_DOMAINS.any (fun pd => pyContains (AEU.extract_domain url) pd) = false :=
    List.any_eq_false.mpr (fun x hx => by simp [h1 x hx])
  have e2 : AEU.FREE_DOMAINS.any (fun fd => pyContains (AEU.extract_domain url) fd) = false :=
    List.any_eq_false.mpr (fun x hx => by simp [h2 x hx])
  unfold AEU.classify_url AEU.classify_url_tier_rules
  simp only [e1, e2, Bool.false_eq_true, if_false]

/-- Witness for C6: a URL on neither curated list is classified by the tier
rules alone. -/
theorem c6_curated_lists_witness :
    AEU.classify_url "https://example.com/a" =
      AEU.classify_url_tier_rules "https://example.com/a" :=
  c6_curated_lists.2.2.2 "https://example.com/a" (by decide) (by decide)

/-- C7 counterexample: two primary candidates scoring 100 and a secondary
scoring 95 — the multiple-high-quality edge case fires, but
`needs_human_review` is false because both top scores meet the 70 threshold,
refuting the claim that the selection has `needsHumanReview = true`. -/
theorem c7_needs_review_counterexample :
    1 < (PQF.predict_user_selection
        [("https://doi.org/10.1126/a", {}), ("https://doi.org/10.2/b", {})]
        [("https://www.jstor.org/stable/1738360", "c")] "c").primary_all_scored.countP
        (fun x => decide (85 ≤ x.2.total_score)) ∧
    "Multiple high-quality primary options" ∈ (PQF.predict_user_selection
        [("https://doi.org/10.1126/a", {}), ("https://doi.org/10.2/b", {})]
        [("https://www.jstor.org/stable/1738360", "c")] "c").edge_cases ∧
    (PQF.predict_user_selection
        [("https://doi.org/10.1126/a", {}), ("https://doi.org/10.2/b", {})]
        [("https://www.jstor.org/stable/1738360", "c")] "c").needs_human_review = false := by
  decide

/-- C7 as amended: when more than one primary candidate scores at least 85,
the returned selection records the reason `Multiple high-quality primary
options` among its edge cases (`needs_human_review`, however, is computed
solely from the 70-point threshold on the top primary and secondary scores). -/
theorem c7_multi_high_edge_case (primary_candidates : List (String × Bib))
    (secondary_candidates : List (String × String)) (context : String)
    (h : 1 < (primary_candidates.map
        (fun p => (p.1, PQF.score_primary_url p.1 p.2))).countP
        (fun x => decide (85 ≤ x.2.total_score))) :
    "Multiple high-quality primary options" ∈
      (PQF.predict_user_selection primary_candidates secondary_candidates context).edge_cases := by
  unfold PQF.predict_user_selection
  have hc : 1 < (sortDesc (fun x => x.2.total_score)
      (primary_candidates.map (fun p => (p.1, PQF.score_primary_url p.1 p.2)))).countP
      (fun x => decide (85 ≤ x.2.total_score)) := by
    rw [countP_sortDesc]
    exact h
  simp [hc]

/-- Witness for C7 as amended. -/
theorem c7_multi_high_edge_case_witness :
    "Multiple high-quality primary options" ∈
      (PQF.predict_user_selection
        [("https://doi.org/10.1126/a", {}), ("https://doi.org/10.2/b", {})] [] "c").edge_cases :=
  c7_multi_high_edge_case
    [("https://doi.org/10.1126/a", {}), ("https://doi.org/10.2/b", {})] [] "c" (by decide)

/-- C8 counterexample: with a single secondary candidate equal to the chosen
primary URL, the duplicate is scored 0 yet still returned as the recommended
secondary — it is not excluded before selection, refuting the claim. -/
theorem c8_duplicate_secondary_counterexample :
    (PQF.predict_user_selection [("https://doi.org/10.1", {})]
        [("https://doi.org/10.1", "c")] "c").primary_recommended.map Prod.fst =
      some "https://doi.org/10.1" ∧
    (PQF.predict_user_selection [("https://doi.org/10.1", {})]
        [("https://doi.org/10.1", "c")] "c").secondary_recommended.map Prod.fst =
      some "https://doi.org/10.1" := by
  decide

theorem score_secondary_ge (u c : String) (pu : Option String)
    (h1 : u ≠ "") (h2 : pu ≠ some u) :
    60 ≤ (PQF.score_secondary_url u c pu).total_score := by
  unfold PQF.score_secondary_url
  rw [if_neg h1, if_neg h2]
  exact relationship_score_ge _

theorem secondary_top_not_duplicate (ss : List (String × String)) (pu : Option String)
    (u0 c0 : String) (hmem : (u0, c0) ∈ ss) (hne : pu ≠ some u0) (hu0 : u0 ≠ "")
    (sUrl : String) (sScore : PQF.URLScore)
    (hhead : (sortDesc (fun x => x.2.total_score)
        (ss.map (fun p => (p.1, PQF.score_secondary_url p.1 p.2 pu)))).head? =
      some (sUrl, sScore)) :
    pu ≠ some sUrl := by
  have hmax := head_max_sortDesc _ _ _ hhead
    (u0, PQF.score_secondary_url u0 c0 pu)
    (List.mem_map_of_mem (fun p => (p.1, PQF.score_secondary_url p.1 p.2 pu)) hmem)
  have htot : 60 ≤ sScore.total_score :=
    le_trans (score_secondary_ge u0 c0 pu hu0 hne) hmax
  intro hcontra
  obtain ⟨⟨u', c'⟩, hm', he⟩ := List.mem_map.mp (head_mem_sortDesc _ _ _ hhead)
  have hu' : u' = sUrl := congrArg Prod.fst he
  have hs' : PQF.score_secondary_url sUrl c' pu = sScore := by
    rw [← hu']
    exact congrArg Prod.snd he
  rw [hcontra] at hs'
  unfold PQF.score_secondary_url at hs'
  by_cases hemp : sUrl = ""
  · rw [if_pos hemp] at hs'
    rw [← hs'] at htot
    norm_num at htot
  · rw [if_neg hemp, if_pos rfl] at hs'
    rw [← hs'] at htot
    norm_num at htot

/-- C8 as amended: a secondary candidate whose URL equals the primary's is
scored 0 ("ERROR: Duplicate of primary URL") and therefore never outranks
any candidate with a different, non-empty URL (all of which score at least
60); so whenever such an alternative exists, the recommended secondary's URL
differs from the primary's.  (The duplicate is not excluded outright: with
no alternative it is still returned, as the counterexample shows.) -/
theorem c8_secondary_differs (primary_candidates : List (String × Bib))
    (secondary_candidates : List (String × String)) (context : String)
    (pUrl : String)
    (hp : (PQF.predict_user_selection primary_candidates secondary_candidates
        context).primary_recommended.map Prod.fst = some pUrl)
    (u0 c0 : String) (hmem : (u0, c0) ∈ secondary_candidates)
    (hne : u0 ≠ pUrl) (hu0 : u0 ≠ "")
    (sUrl : String)
    (hs : (PQF.predict_user_selection primary_candidates secondary_candidates
        context).secondary_recommended.map Prod.fst = some sUrl) :
    sUrl ≠ pUrl := by
  unfold PQF.predict_user_selection at hp hs
  simp only at hp hs
  rw [hp] at hs
  obtain ⟨⟨u1, s1⟩, hx, hu1⟩ := Option.map_eq_some'.mp hs
  have hdiff := secondary_top_not_duplicate secondary_candidates (some pUrl) u0 c0 hmem
    (fun h => hne (Option.some.inj h).symm) hu0 u1 s1 hx
  have hu1' : u1 = sUrl := hu1
  intro h
  exact hdiff (by rw [hu1', h])

/-- Witness for C8 as amended: an archive.org alternative is selected over
the duplicate of the primary. -/
theorem c8_secondary_differs_witness :
    ("https://archive.org/details/x" : String) ≠ "https://doi.org/10.1" ∧
    (PQF.predict_user_selection [("https://doi.org/10.1", {})]
        [("https://archive.org/details/x", "c"), ("https://doi.org/10.1", "c")]
        "c").secondary_recommended.map Prod.fst = some "https://archive.org/details/x" :=
  ⟨c8_secondary_differs [("https://doi.org/10.1", {})]
      [("https://archive.org/details/x", "c"), ("https://doi.org/10.1", "c")] "c"
      "https://doi.org/10.1" (by decide)
      "https://archive.org/details/x" "c" (by decide) (by decide) (by decide)
      "https://archive.org/details/x" (by decide),
   by decide⟩

/-- C9: the basic content matcher's confidence is exactly the sum of a title
part (0.6 when at least half the significant title words occur in the body,
otherwise 0) and an author part (0.4 when the author's surname occurs,
otherwise 0), always within [0, 1], and `matches` holds exactly when the
combined confidence is at least 0.5. -/
theorem c9_content_match_weights (content : String) (reference : Bib) :
    ((Enhanced.verify_content_match_basic content reference).matches' = true ↔
      Frac.le ⟨1, 2⟩ (Enhanced.verify_content_match_basic content reference).confidence = true) ∧
    (Enhanced.verify_content_match_basic content reference).confidence =
      Frac.add
        (if Frac.le ⟨1, 2⟩ (Enhanced.title_coverage content reference) then ⟨6, 10⟩ else ⟨0, 10⟩)
        (if Enhanced.author_found content reference then ⟨4, 10⟩ else ⟨0, 10⟩) ∧
    Frac.le ⟨0, 1⟩ (Enhanced.verify_content_match_basic content reference).confidence = true ∧
    Frac.le (Enhanced.verify_content_match_basic content reference).confidence ⟨1, 1⟩ = true := by
  refine ⟨Iff.rfl, rfl, ?_, ?_⟩ <;>
    · unfold Enhanced.verify_content_match_basic
      cases hA : Frac.le ⟨1, 2⟩ (Enhanced.title_coverage content reference) <;>
        cases hB : Enhanced.author_found content reference <;>
        simp only [hA, hB, Bool.false_eq_true, if_true, if_false, ite_true, ite_false] <;>
        decide

theorem check_title_nonneg (candidate_title : String) (bib : Bib) :
    0 ≤ Enhanced.check_title_for_primary candidate_title bib := by
  simp only [Enhanced.check_title_for_primary]
  split_ifs <;> norm_num

theorem check_paywall_nonneg (url : String) : 0 ≤ Enhanced.check_paywall url := by
  simp only [Enhanced.check_paywall]
  split_ifs <;> norm_num

theorem verify_content_nonneg (att : Enhanced.ContentFetchAttempt) :
    0 ≤ Enhanced.verify_content_for_primary att := by
  cases att <;> simp only [Enhanced.verify_content_for_primary]
  · split_ifs <;> norm_num
  · norm_num

theorem base_score_bounds (url : String) (bib : Bib) :
    0 ≤ (PQF.score_primary_url url bib).total_score ∧
    (PQF.score_primary_url url bib).total_score ≤ 100 := by
  unfold PQF.score_primary_url
  split_ifs
  · exact ⟨le_refl 0, by norm_num⟩
  · dsimp only
    constructor <;> simp only [Int.min_def, Int.max_def] <;> split_ifs <;> omega

/-- C10: the enhanced primary score never exceeds the base score for the
same URL — the title, paywall and content penalties are all non-negative and
only subtract — and the result lies in [0, 100]. -/
theorem c10_enhanced_bounded (flag : Bool) (att : Enhanced.ContentFetchAttempt)
    (url : String) (bib : Bib) (candidate_title : String) :
    (Enhanced.score_primary_url flag att url bib candidate_title).total_score ≤
      (PQF.score_primary_url url bib).total_score ∧
    0 ≤ (Enhanced.score_primary_url flag att url bib candidate_title).total_score ∧
    (Enhanced.score_primary_url flag att url bib candidate_title).total_score ≤ 100 ∧
    0 ≤ Enhanced.check_title_for_primary candidate_title bib ∧
    0 ≤ Enhanced.check_paywall url ∧
    0 ≤ Enhanced.verify_content_for_primary att := by
  have ht := check_title_nonneg candidate_title bib
  have hw := check_paywall_nonneg url
  have hv := verify_content_nonneg att
  have hb := base_score_bounds url bib
  have hmain : (Enhanced.score_primary_url flag att url bib candidate_title).total_score =
      max 0 (min 100 ((PQF.score_primary_url url bib).total_score -
        Enhanced.check_title_for_primary candidate_title bib -
        Enhanced.check_paywall url -
        (if flag && decide (75 ≤ (PQF.score_primary_url url bib).total_score) then
          Enhanced.verify_content_for_primary att else 0))) := rfl
  have hcp : 0 ≤ (if flag && decide (75 ≤ (PQF.score_primary_url url bib).total_score) then
      Enhanced.verify_content_for_primary att else 0) := by
    split_ifs
    · exact hv
    · exact le_refl 0
  rw [hmain]
  refine ⟨?_, ?_, ?_, ht, hw, hv⟩ <;>
    · simp only [Int.max_def, Int.min_def]
      split_ifs <;> omega
